import Mathlib

/-
Shallow embedding of the BehaviorStudio remote-control Controller
(src/behavior_studio/utils/controller.py).

The Controller keeps a thread-safe per-key data cache (`data`), a pose slot
(`pose3D_data`), a recording flag, and — in headless mode — serves a TCP
command channel: a receive loop extracts `##`-delimited frames, `parse_msg`
decodes each frame as JSON and dispatches on the hex `op` code, and
`send_response` writes a length-prefixed pickled payload.

External side effects (log lines, ROS service calls, pilot stop-event
operations, subprocess management, socket sends) are modelled as explicit
event traces; Python exceptions propagating out of a method are modelled as
an `Option PyError` / `Except PyError` result.  Python integers and byte
values are modelled as `Nat`.
-/

namespace BehaviorStudio

/-- External side effects performed by Controller methods: logger lines,
ROS service-proxy calls, pilot stop-event operations and subprocess
management.  `callUnpausePhysics` stands for the `/gazebo/unpause_physics`
service call, which appears only commented out inside
`unpause_gazebo_simulation` (controller.py lines 232-233); the constructor
exists so that its absence from a trace can be stated.  `setRecording b`
records an assignment `self.recording = b`. -/
inductive Effect where
  | logPausing
  | logResuming
  | logRestarting
  | callPausePhysics
  | callUnpausePhysics
  | callResetWorld
  | stopEventSet
  | stopEventClear
  | pilotInitRobot
  | pilotReloadBrain (brain : String)
  | logReloading (brain : String)
  | logUndefined
  | logNoSupported
  | logRecordingAt (dataset : String)
  | setRecording (b : Bool)
  | spawnRosbag
  | logAlreadyRecording
  | logStoppingBag
  | killRosbagNode
  | logNoBag
  deriving DecidableEq

/-- Python exceptions that can propagate out of the modelled methods. -/
inductive PyError where
  | jsonDecodeError
  | nameError
  | attributeError
  | indexError
  | structError
  deriving DecidableEq

/-- Numeric value of OP_CODE.get_data (the Enum auto-numbers from 1 in
declaration order, matching the comment block at controller.py lines 37-46). -/
def OP_get_data : Nat := 1

/-- Numeric value of OP_CODE.initialize_robot. -/
def OP_init_robot : Nat := 2

/-- Numeric value of OP_CODE.reload_brain. -/
def OP_reload_brain : Nat := 3

/-- Numeric value of OP_CODE.record_rosbag. -/
def OP_record_rosbag : Nat := 4

/-- Numeric value of OP_CODE.stop_record. -/
def OP_stop_record : Nat := 5

/-- Numeric value of OP_CODE.pause_gazebo. -/
def OP_pause_gazebo : Nat := 6

/-- Numeric value of OP_CODE.unpause_gazebo. -/
def OP_unpause_gazebo : Nat := 7

/-- Numeric value of OP_CODE.reset_gazebo. -/
def OP_reset_gazebo : Nat := 8

/-- Mutable attribute state of a Controller instance.  `data` is the
frame-id cache dictionary (`self.data`), `pose3D` the pose slot
(`self.pose3D_data`), `recording` the rosbag flag.  `rosbagProc` records
whether the `self.rosbag_proc` attribute has ever been assigned (it is set
only inside `record_rosbag`; reading it before that raises AttributeError).
`pilotSet` records whether `set_pilot` has been called (reading
`self.pilot` before that raises AttributeError).  Values stored in the
cache are opaque to the controller, hence the type parameter `Val`. -/
structure ControllerState (Val : Type) where
  data : String → Option Val
  pose3D : Option Val
  recording : Bool
  rosbagProc : Bool
  pilotSet : Bool

/-- State of a freshly constructed Controller (constructor at lines 70-77):
empty data dict, no pose, not recording, and neither `rosbag_proc` nor
`pilot` assigned. -/
def initialState (Val : Type) : ControllerState Val :=
  { data := fun _ => none
    pose3D := none
    recording := false
    rosbagProc := false
    pilotSet := false }

/-- A fresh Controller after `set_pilot` has been called, as in the intended
startup sequence; used as a concrete evaluation point. -/
def pilotedState : ControllerState Nat :=
  { initialState Nat with pilotSet := true }

variable {Val : Type}

/-- Controller.update_frame (lines 160-173): upserts `data` under
`frame_id` inside the data lock.  The dict assignment cannot fail, so the
surrounding try/except is dead and the model is a pure update. -/
def update_frame (s : ControllerState Val) (frame_id : String) (d : Val) :
    ControllerState Val :=
  { s with data := fun k => if k = frame_id then some d else s.data k }

/-- Controller.get_data (lines 175-193): `self.data.get(frame_id, None)`
inside the data lock; returns None (here `none`) for a key never written,
never raising. -/
def get_data (s : ControllerState Val) (frame_id : String) : Option Val :=
  s.data frame_id

/-- Controller.update_pose3d (lines 195-205): stores the pose under the
pose lock. -/
def update_pose3d (s : ControllerState Val) (d : Val) : ControllerState Val :=
  { s with pose3D := some d }

/-- Controller.get_pose3D (lines 207-215). -/
def get_pose3D (s : ControllerState Val) : Option Val :=
  s.pose3D

/-- Result of a Controller method that may mutate state, emit effects and
raise: the trace of effects performed before returning or raising, the
resulting attribute state, and the exception, if one propagates. -/
structure MethodResult (Val : Type) where
  effects : List Effect
  state : ControllerState Val
  error : Option PyError

/-- Controller.stop_record (lines 255-265): `if self.rosbag_proc and
self.recording:` — evaluating `self.rosbag_proc` raises AttributeError when
the attribute was never assigned; otherwise the Popen handle is truthy, so
the conjunction reduces to `recording`.  The then-branch logs, clears the
flag and kills the rosbag node; the else-branch logs "No bag recording". -/
def stop_record (s : ControllerState Val) : MethodResult Val :=
  if s.rosbagProc then
    if s.recording then
      { effects := [.logStoppingBag, .setRecording false, .killRosbagNode]
        state := { s with recording := false }
        error := none }
    else
      { effects := [.logNoBag], state := s, error := none }
  else
    { effects := [], state := s, error := some .attributeError }

/-- Controller.record_rosbag (lines 236-253): when not recording, logs,
sets the flag, and spawns the rosbag subprocess (assigning
`self.rosbag_proc`); the `topics` parameter is ignored because the body
overwrites it with a fixed list.  When already recording, logs "Rosbag
already recording" and calls stop_record. -/
def record_rosbag (s : ControllerState Val) (_topics : List String)
    (dataset_name : String) : MethodResult Val :=
  if !s.recording then
    { effects := [.logRecordingAt dataset_name, .setRecording true, .spawnRosbag]
      state := { s with recording := true, rosbagProc := true }
      error := none }
  else
    let r := stop_record s
    { effects := .logAlreadyRecording :: r.effects, state := r.state, error := r.error }

/-- Controller.pause_gazebo_simulation (lines 224-228): logs, calls the
`/gazebo/pause_physics` service, then `self.pilot.stop_event.set()` —
which raises AttributeError when no pilot was set.  State is unchanged;
the result is the effect trace and the propagating exception, if any. -/
def pause_gazebo_simulation (s : ControllerState Val) :
    List Effect × Option PyError :=
  if s.pilotSet then ([.logPausing, .callPausePhysics, .stopEventSet], none)
  else ([.logPausing, .callPausePhysics], some .attributeError)

/-- Controller.unpause_gazebo_simulation (lines 230-234): logs "Resuming
simulation" and clears the pilot stop event.  The `/gazebo/unpause_physics`
service call is commented out in the source, so no `callUnpausePhysics`
effect is ever emitted. -/
def unpause_gazebo_simulation (s : ControllerState Val) :
    List Effect × Option PyError :=
  if s.pilotSet then ([.logResuming, .stopEventClear], none)
  else ([.logResuming], some .attributeError)

/-- Controller.reset_gazebo_simulation (lines 219-222): logs and calls the
`/gazebo/reset_world` service; touches no pilot state. -/
def reset_gazebo_simulation : List Effect × Option PyError :=
  ([.logRestarting, .callResetWorld], none)

/-- Controller.initialize_robot (lines 291-294): pause_pilot
(stop_event.set), pilot.initialize_robot, resume_pilot (stop_event.clear);
raises AttributeError at the first pilot access when no pilot was set. -/
def init_robot (s : ControllerState Val) : List Effect × Option PyError :=
  if s.pilotSet then ([.stopEventSet, .pilotInitRobot, .stopEventClear], none)
  else ([], some .attributeError)

/-- Controller.reload_brain (lines 267-276): logs, then pause_pilot,
pilot.reload_brain, resume_pilot. -/
def reload_brain (s : ControllerState Val) (brain : String) :
    List Effect × Option PyError :=
  if s.pilotSet then
    ([.logReloading brain, .stopEventSet, .pilotReloadBrain brain, .stopEventClear], none)
  else ([.logReloading brain], some .attributeError)

/-- Value passed to send_response: either the literal acknowledgement
bytes b'200' or the data value returned by get_data (possibly None). -/
inductive ResponseVal (Val : Type) where
  | ack200
  | dataVal (v : Option Val)
  deriving DecidableEq

/-- Outcome of decoding one extracted frame, i.e. of
`json.loads(msg.decode('utf-8'))` followed by `int(msg['op'], 16)` and
`msg['params']` (lines 118-121).  The json library is external to the
repository, so frames are represented by their decode outcome:
`malformed` — `json.loads` raises (invalid UTF-8 or invalid JSON); note
that this call sits OUTSIDE the try block.  `opUnparsable` — valid JSON but
`msg['op']` is absent or not a hex string, so line 120 raises inside the
try block and the local `op` is never bound.  `envelope op params` — both
fields extracted; `op` is the parsed base-16 integer and `params` the
parameter list (string-valued in every use the dispatcher makes). -/
inductive DecodedFrame where
  | malformed
  | opUnparsable
  | envelope (op : Nat) (params : List String)

/-- Result of Controller.parse_msg on one frame: effects performed, the
values passed to send_response (in order), the final value of the local
variable `response` (none when never assigned), the resulting state, and
the exception propagating out of parse_msg, if any. -/
structure ParseResult (Val : Type) where
  effects : List Effect
  sent : List (ResponseVal Val)
  responseVar : Option (ResponseVal Val)
  state : ControllerState Val
  error : Option PyError

/-- Shared shape of the mutating-op branches of parse_msg: run the handler;
on success assign the local `response = b'200'` — which is never passed to
send_response — and on an exception propagate it. -/
def withAck (s : ControllerState Val) :
    List Effect × Option PyError → ParseResult Val
  | (effs, none) =>
    { effects := effs, sent := [], responseVar := some .ack200, state := s, error := none }
  | (effs, some e) =>
    { effects := effs, sent := [], responseVar := none, state := s, error := some e }

/-- Controller.parse_msg (lines 117-148).  Only the get_data branch calls
send_response; every other defined op merely assigns the local `response`.
A decode failure propagates an exception: `json.loads` raises directly for
malformed input, and when the op field cannot be extracted the except
clause prints 'No supported operation' after which `if op == ...` raises
NameError on the unbound local `op`.  An op value outside 1-8 reaches the
else branch, which prints 'Undefined operation' and returns normally.
`params[0]` on an empty list raises IndexError. -/
def parse_msg (s : ControllerState Val) : DecodedFrame → ParseResult Val
  | .malformed =>
    { effects := [], sent := [], responseVar := none, state := s
      error := some .jsonDecodeError }
  | .opUnparsable =>
    { effects := [.logNoSupported], sent := [], responseVar := none, state := s
      error := some .nameError }
  | .envelope op params =>
    if op = OP_get_data then
      match params with
      | [] =>
        { effects := [], sent := [], responseVar := none, state := s
          error := some .indexError }
      | k :: _ =>
        let response := ResponseVal.dataVal (get_data s k)
        { effects := [], sent := [response], responseVar := some response
          state := s, error := none }
    else if op = OP_init_robot then
      withAck s (init_robot s)
    else if op = OP_reload_brain then
      match params with
      | [] =>
        { effects := [], sent := [], responseVar := none, state := s
          error := some .indexError }
      | b :: _ => withAck s (reload_brain s b)
    else if op = OP_record_rosbag then
      { effects := [], sent := [], responseVar := some .ack200, state := s, error := none }
    else if op = OP_stop_record then
      { effects := [], sent := [], responseVar := some .ack200, state := s, error := none }
    else if op = OP_pause_gazebo then
      withAck s (pause_gazebo_simulation s)
    else if op = OP_unpause_gazebo then
      withAck s (unpause_gazebo_simulation s)
    else if op = OP_reset_gazebo then
      withAck s reset_gazebo_simulation
    else
      { effects := [.logUndefined], sent := [], responseVar := none, state := s, error := none }

/-- Outcome of serving a sequence of frames on one connection. -/
structure ServeResult (Val : Type) where
  effects : List Effect
  sent : List (ResponseVal Val)
  state : ControllerState Val
  closedByError : Option PyError

/-- Per-connection dispatch loop of start_listening (lines 95-108) over a
list of already extracted frames: each frame is passed to parse_msg in
order; an exception from parse_msg ends the loop and the finally block
closes the connection (`closedByError` records the exception; the
remaining frames are never processed). -/
def serveFrames (s : ControllerState Val) : List DecodedFrame → ServeResult Val
  | [] => { effects := [], sent := [], state := s, closedByError := none }
  | f :: rest =>
    let r := parse_msg s f
    match r.error with
    | some e =>
      { effects := r.effects, sent := r.sent, state := r.state, closedByError := some e }
    | none =>
      let rr := serveFrames r.state rest
      { effects := r.effects ++ rr.effects
        sent := r.sent ++ rr.sent
        state := rr.state
        closedByError := rr.closedByError }

/-- Python data.index for the two-byte delimiter: finds the first
occurrence of "##" and splits the buffer into the bytes strictly before it
and the bytes strictly after it; `none` when the buffer contains no "##"
(modelling the guard `if "##" in data`). -/
def splitAtDelim : List Char → Option (List Char × List Char)
  | [] => none
  | c :: rest =>
    if c = '#' then
      match rest with
      | [] => none
      | d :: rest2 =>
        if d = '#' then some ([], rest2)
        else
          match splitAtDelim rest with
          | some (m, r) => some (c :: m, r)
          | none => none
    else
      match splitAtDelim rest with
      | some (m, r) => some (c :: m, r)
      | none => none

/-- Buffer evolution of the receive loop (lines 94-103) over a sequence of
chunks returned by successive recv calls: each loop iteration appends one
chunk to the buffer and then — because the extraction is guarded by `if`,
not a loop — extracts AT MOST ONE delimiter-terminated message.  Returns
the final buffer and the messages extracted, in order. -/
def processChunks (buf : List Char) : List (List Char) → List Char × List (List Char)
  | [] => (buf, [])
  | chunk :: rest =>
    let d := buf ++ chunk
    match splitAtDelim d with
    | some (m, r) =>
      let p := processChunks r rest
      (p.1, m :: p.2)
    | none => processChunks d rest

/-- struct.pack with format ">L": 4-byte big-endian encoding of an unsigned
length below 2^32 (the constants are 2^24, 2^16 and 2^8). -/
def packBE32 (n : Nat) : List Nat :=
  [n / 16777216 % 256, n / 65536 % 256, n / 256 % 256, n % 256]

/-- Big-endian decoding of a 4-byte list, the reading the peer performs on
the length prefix. -/
def unpackBE32 : List Nat → Nat
  | [a, b, c, d] => ((a * 256 + b) * 256 + c) * 256 + d
  | _ => 0

/-- Controller.send_response (lines 110-115): serializes the value
(pickle.dumps is an external library, passed in as the serializer),
computes the payload length, and performs a single sendall of the 4-byte
big-endian length prefix concatenated with the payload.  Returns the list
of sendall payloads; struct.pack raises struct.error when the length does
not fit in 4 bytes. -/
def send_response (serialize : Val → List Nat) (d : Val) :
    Except PyError (List (List Nat)) :=
  let compressed_data := serialize d
  let size := compressed_data.length
  if size < 4294967296 then Except.ok [packBE32 size ++ compressed_data]
  else Except.error .structError

/-- Serializer used as a concrete evaluation point for send_response. -/
def testSerialize : Nat → List Nat := fun _ => [1, 2, 3]

/-! Helper lemmas. -/

theorem splitAtDelim_append_delim (m r : List Char) (hm : '#' ∉ m) :
    splitAtDelim (m ++ '#' :: '#' :: r) = some (m, r) := by
  induction m with
  | nil => simp [splitAtDelim]
  | cons a t ih =>
    have ha : a ≠ '#' := fun h => hm (h ▸ List.mem_cons_self a t)
    have ht : '#' ∉ t := fun h => hm (List.mem_cons_of_mem a h)
    simp [splitAtDelim, ha, ih ht]

theorem splitAtDelim_no_delim (m : List Char) (hm : '#' ∉ m) :
    splitAtDelim (m ++ ['#']) = none := by
  induction m with
  | nil => simp [splitAtDelim]
  | cons a t ih =>
    have ha : a ≠ '#' := fun h => hm (h ▸ List.mem_cons_self a t)
    have ht : '#' ∉ t := fun h => hm (List.mem_cons_of_mem a h)
    simp [splitAtDelim, ha, ih ht]

theorem unpackBE32_packBE32 (n : Nat) (h : n < 4294967296) :
    unpackBE32 (packBE32 n) = n := by
  simp only [packBE32, unpackBE32]
  omega

/-! Claim theorems. -/

/-- C1: dispatching op code 06 (pause_gazebo) invokes the pause path exactly
once — one `/gazebo/pause_physics` service call and one stop-event set, as
the literal effect trace shows — and assigns the local `response = b'200'`,
but parse_msg sends nothing: the acknowledgement is never passed to
send_response, so no outbound frame is produced (only the get_data branch
calls send_response). -/
theorem pause_op_effects_once_but_no_ack_sent (Val : Type)
    (s : ControllerState Val) (h : s.pilotSet = true) :
    parse_msg s (.envelope OP_pause_gazebo []) =
      { effects := [.logPausing, .callPausePhysics, .stopEventSet]
        sent := []
        responseVar := some .ack200
        state := s
        error := none } := by
  simp [parse_msg, withAck, pause_gazebo_simulation, h, OP_get_data, OP_init_robot,
    OP_reload_brain, OP_record_rosbag, OP_stop_record, OP_pause_gazebo]

/-- Witness for C1 at the concrete piloted fresh state. -/
theorem pause_op_effects_once_but_no_ack_sent_witness :
    pilotedState.pilotSet = true ∧
    parse_msg pilotedState (.envelope OP_pause_gazebo []) =
      { effects := [.logPausing, .callPausePhysics, .stopEventSet]
        sent := []
        responseVar := some .ack200
        state := pilotedState
        error := none } :=
  ⟨rfl, pause_op_effects_once_but_no_ack_sent Nat pilotedState rfl⟩

/-- C2: a frame whose op field cannot be extracted makes parse_msg print
the 'No supported operation' diagnostic and then raise NameError on the
unbound local `op`; a frame that is not valid JSON makes json.loads raise
without any diagnostic.  In both cases the exception ends the serve loop:
the connection is closed and every subsequent frame — valid or not — is
never processed, contradicting the claim that the connection survives. -/
theorem decode_failure_closes_connection (Val : Type) (s : ControllerState Val)
    (rest : List DecodedFrame) :
    serveFrames s (.opUnparsable :: rest) =
      { effects := [.logNoSupported], sent := [], state := s
        closedByError := some .nameError } ∧
    serveFrames s (.malformed :: rest) =
      { effects := [], sent := [], state := s
        closedByError := some .jsonDecodeError } := by
  constructor <;> simp [serveFrames, parse_msg]

/-- C3 counterexample: delivering "...a#" then "#b##" in exactly two reads
extracts only ONE message, not two — the extraction is guarded by `if`, so
each read iteration extracts at most one message even when the buffer holds
two complete ones. -/
theorem two_reads_extract_single_message_cex :
    (processChunks [] [['a', '#'], ['#', 'b', '#', '#']]).2 = [['a']] ∧
    ¬ (processChunks [] [['a', '#'], ['#', 'b', '#', '#']]).2.length = 2 := by
  decide

/-- C3 amended: frame extraction tolerates the delimiter being split across
reads, but extracts at most one message per read iteration; delivering
m1 ++ "#" then "#" ++ m2 ++ "##" in two reads followed by ONE further read
iteration yields exactly the two messages m1 and m2, in order (after the
two reads alone, only m1 has been extracted — see the counterexample). -/
theorem one_message_per_read_in_order (m1 m2 : List Char)
    (h1 : '#' ∉ m1) (h2 : '#' ∉ m2) :
    processChunks [] [m1 ++ ['#'], '#' :: (m2 ++ ['#', '#']), []] = ([], [m1, m2]) := by
  have e1 : splitAtDelim (m1 ++ ['#']) = none := splitAtDelim_no_delim m1 h1
  have e2 : splitAtDelim (m1 ++ '#' :: '#' :: (m2 ++ ['#', '#'])) =
      some (m1, m2 ++ ['#', '#']) := splitAtDelim_append_delim m1 (m2 ++ ['#', '#']) h1
  have e3 : splitAtDelim (m2 ++ ['#', '#']) = some (m2, []) :=
    splitAtDelim_append_delim m2 [] h2
  simp [processChunks, List.append_assoc, e1, e2, e3]

/-- Witness for C3 amended at concrete one-byte messages. -/
theorem one_message_per_read_in_order_witness :
    '#' ∉ ['a'] ∧ '#' ∉ ['b'] ∧
    processChunks [] [['a'] ++ ['#'], '#' :: (['b'] ++ ['#', '#']), []] = ([], [['a'], ['b']]) :=
  ⟨by decide, by decide, one_message_per_read_in_order ['a'] ['b'] (by decide) (by decide)⟩

/-- C4: get_data on a freshly constructed controller returns `none` ("no
value", never raising, since it is a total function), and immediately
after update_frame k v, get_data k returns exactly v. -/
theorem get_data_update_frame_roundtrip (Val : Type) (s : ControllerState Val)
    (k : String) (v : Val) :
    get_data (initialState Val) k = none ∧
    get_data (update_frame s k v) k = some v := by
  exact ⟨rfl, by simp [get_data, update_frame]⟩

/-- C5 counterexample: dispatching op code 07 at the piloted fresh state
performs only the "Resuming simulation" log and the stop-event clear; the
`/gazebo/unpause_physics` service call — the simulation-physics resume the
claim requires — does not occur (it is commented out in the source). -/
theorem resume_op_no_physics_call_cex :
    (parse_msg pilotedState (.envelope 7 [])).effects = [.logResuming, .stopEventClear] ∧
    Effect.callUnpausePhysics ∉ (parse_msg pilotedState (.envelope 7 [])).effects := by
  decide

/-- C5 amended: dispatching op code 07 (unpause_gazebo) signals the control
loop to continue — it clears the pilot stop event — and completes without
error, assigning the (unsent) acknowledgement; it does NOT invoke the
simulation-physics resume, whose service call is commented out. -/
theorem resume_op_clears_stop_event_only (Val : Type) (s : ControllerState Val)
    (params : List String) (h : s.pilotSet = true) :
    parse_msg s (.envelope OP_unpause_gazebo params) =
      { effects := [.logResuming, .stopEventClear]
        sent := []
        responseVar := some .ack200
        state := s
        error := none } ∧
    Effect.callUnpausePhysics ∉ (parse_msg s (.envelope OP_unpause_gazebo params)).effects := by
  have heq : parse_msg s (.envelope OP_unpause_gazebo params) =
      { effects := [.logResuming, .stopEventClear], sent := []
        responseVar := some .ack200, state := s, error := none } := by
    simp [parse_msg, withAck, unpause_gazebo_simulation, h, OP_get_data, OP_init_robot,
      OP_reload_brain, OP_record_rosbag, OP_stop_record, OP_pause_gazebo, OP_unpause_gazebo]
  refine ⟨heq, ?_⟩
  rw [heq]
  simp

/-- Witness for C5 amended at the concrete piloted fresh state. -/
theorem resume_op_clears_stop_event_only_witness :
    pilotedState.pilotSet = true ∧
    (parse_msg pilotedState (.envelope OP_unpause_gazebo []) =
      { effects := [.logResuming, .stopEventClear]
        sent := []
        responseVar := some .ack200
        state := pilotedState
        error := none } ∧
    Effect.callUnpausePhysics ∉ (parse_msg pilotedState (.envelope OP_unpause_gazebo [])).effects) :=
  ⟨rfl, resume_op_clears_stop_event_only Nat pilotedState [] rfl⟩

/-- C6: on a freshly constructed controller (recording never started) the
attribute `rosbag_proc` was never assigned, so stop_record raises
AttributeError instead of reporting "nothing to stop" and returning
successfully: no effect is performed, and the error propagates. -/
theorem stop_record_fresh_state_attribute_error (Val : Type) :
    stop_record (initialState Val) =
      { effects := [], state := initialState Val, error := some .attributeError } := by
  rfl

/-- C7: a parseable op value outside the eight defined codes makes the
dispatcher print 'Undefined operation', send nothing, and return normally:
serving such a frame followed by any remaining frames behaves exactly like
serving the remaining frames alone, with only the diagnostic prepended —
the connection stays open and fully usable. -/
theorem undefined_op_no_response_loop_continues (Val : Type)
    (s : ControllerState Val) (op : Nat) (params : List String)
    (rest : List DecodedFrame) (h : op = 0 ∨ 8 < op) :
    serveFrames s (.envelope op params :: rest) =
      { effects := .logUndefined :: (serveFrames s rest).effects
        sent := (serveFrames s rest).sent
        state := (serveFrames s rest).state
        closedByError := (serveFrames s rest).closedByError } := by
  have h1 : op ≠ OP_get_data := by simp only [OP_get_data]; omega
  have h2 : op ≠ OP_init_robot := by simp only [OP_init_robot]; omega
  have h3 : op ≠ OP_reload_brain := by simp only [OP_reload_brain]; omega
  have h4 : op ≠ OP_record_rosbag := by simp only [OP_record_rosbag]; omega
  have h5 : op ≠ OP_stop_record := by simp only [OP_stop_record]; omega
  have h6 : op ≠ OP_pause_gazebo := by simp only [OP_pause_gazebo]; omega
  have h7 : op ≠ OP_unpause_gazebo := by simp only [OP_unpause_gazebo]; omega
  have h8 : op ≠ OP_reset_gazebo := by simp only [OP_reset_gazebo]; omega
  simp [serveFrames, parse_msg, h1, h2, h3, h4, h5, h6, h7, h8]

/-- Witness for C7: op 9 before a reset frame at the fresh state; the
unknown frame adds only the diagnostic and the reset frame is still
served. -/
theorem undefined_op_no_response_loop_continues_witness :
    ((9 : Nat) = 0 ∨ 8 < (9 : Nat)) ∧
    serveFrames (initialState Nat) [.envelope 9 [], .envelope OP_reset_gazebo []] =
      { effects := .logUndefined ::
          (serveFrames (initialState Nat) [.envelope OP_reset_gazebo []]).effects
        sent := (serveFrames (initialState Nat) [.envelope OP_reset_gazebo []]).sent
        state := (serveFrames (initialState Nat) [.envelope OP_reset_gazebo []]).state
        closedByError :=
          (serveFrames (initialState Nat) [.envelope OP_reset_gazebo []]).closedByError } :=
  ⟨Or.inr (by decide),
   undefined_op_no_response_loop_continues Nat (initialState Nat) 9 []
     [.envelope OP_reset_gazebo []] (Or.inr (by decide))⟩

/-- C8: two consecutive record_rosbag calls with no intervening stop: the
first starts the session (recording becomes true); the second takes the
already-recording branch and calls stop_record, leaving the session
inactive, with exactly one toggle to inactive (and none to active) in the
second call's trace. -/
theorem double_record_toggles_inactive (Val : Type) (s : ControllerState Val)
    (t1 : List String) (n1 : String) (t2 : List String) (n2 : String)
    (h : s.recording = false) :
    (record_rosbag s t1 n1).error = none ∧
    (record_rosbag s t1 n1).state.recording = true ∧
    (record_rosbag (record_rosbag s t1 n1).state t2 n2).error = none ∧
    (record_rosbag (record_rosbag s t1 n1).state t2 n2).state.recording = false ∧
    (record_rosbag (record_rosbag s t1 n1).state t2 n2).effects =
      [.logAlreadyRecording, .logStoppingBag, .setRecording false, .killRosbagNode] ∧
    ((record_rosbag (record_rosbag s t1 n1).state t2 n2).effects.count
      (.setRecording false) = 1 ∧
     (record_rosbag (record_rosbag s t1 n1).state t2 n2).effects.count
      (.setRecording true) = 0) := by
  simp [record_rosbag, stop_record, h, List.count_cons]

/-- Witness for C8 at the fresh state. -/
theorem double_record_toggles_inactive_witness :
    (initialState Nat).recording = false ∧
    ((record_rosbag (initialState Nat) [] "bag1").error = none ∧
     (record_rosbag (initialState Nat) [] "bag1").state.recording = true ∧
     (record_rosbag (record_rosbag (initialState Nat) [] "bag1").state [] "bag2").error = none ∧
     (record_rosbag (record_rosbag (initialState Nat) [] "bag1").state [] "bag2").state.recording
        = false ∧
     (record_rosbag (record_rosbag (initialState Nat) [] "bag1").state [] "bag2").effects =
       [.logAlreadyRecording, .logStoppingBag, .setRecording false, .killRosbagNode] ∧
     ((record_rosbag (record_rosbag (initialState Nat) [] "bag1").state [] "bag2").effects.count
        (.setRecording false) = 1 ∧
      (record_rosbag (record_rosbag (initialState Nat) [] "bag1").state [] "bag2").effects.count
        (.setRecording true) = 0)) :=
  ⟨rfl, double_record_toggles_inactive Nat (initialState Nat) [] "bag1" [] "bag2" rfl⟩

/-- C9: for every serialized response payload that fits the 4-byte length
field, send_response performs exactly one send, whose bytes are the 4-byte
big-endian encoding of the payload length followed by exactly the payload:
the first 4 bytes decode to the payload length and the rest is the payload
itself. -/
theorem send_response_length_prefixed_single_send (Val : Type)
    (serialize : Val → List Nat) (d : Val)
    (h : (serialize d).length < 4294967296) :
    send_response serialize d =
      Except.ok [packBE32 (serialize d).length ++ serialize d] ∧
    (packBE32 (serialize d).length ++ serialize d).take 4 = packBE32 (serialize d).length ∧
    (packBE32 (serialize d).length ++ serialize d).drop 4 = serialize d ∧
    unpackBE32 (packBE32 (serialize d).length) = (serialize d).length := by
  refine ⟨?_, ?_, ?_, unpackBE32_packBE32 _ h⟩
  · simp [send_response, h]
  · simp [packBE32]
  · simp [packBE32]

/-- Witness for C9 at a concrete 3-byte payload. -/
theorem send_response_length_prefixed_single_send_witness :
    (testSerialize 0).length < 4294967296 ∧
    (send_response testSerialize 0 =
      Except.ok [packBE32 (testSerialize 0).length ++ testSerialize 0] ∧
    (packBE32 (testSerialize 0).length ++ testSerialize 0).take 4 =
      packBE32 (testSerialize 0).length ∧
    (packBE32 (testSerialize 0).length ++ testSerialize 0).drop 4 = testSerialize 0 ∧
    unpackBE32 (packBE32 (testSerialize 0).length) = (testSerialize 0).length) :=
  ⟨by decide, send_response_length_prefixed_single_send Nat testSerialize 0 (by decide)⟩

/-- C10: update_frame k v touches only the entry for k: any other key reads
the same value before and after, and the pose slot and recording flag are
unchanged. -/
theorem update_frame_frame_condition (Val : Type) (s : ControllerState Val)
    (k : String) (v : Val) (k2 : String) (h : k2 ≠ k) :
    get_data (update_frame s k v) k2 = get_data s k2 ∧
    (update_frame s k v).pose3D = s.pose3D ∧
    (update_frame s k v).recording = s.recording := by
  refine ⟨?_, rfl, rfl⟩
  simp [get_data, update_frame, h]

/-- Witness for C10 at the fresh state with distinct concrete keys. -/
theorem update_frame_frame_condition_witness :
    ("lidar" : String) ≠ "camera" ∧
    (get_data (update_frame (initialState Nat) "camera" 5) "lidar" =
      get_data (initialState Nat) "lidar" ∧
    (update_frame (initialState Nat) "camera" 5).pose3D = (initialState Nat).pose3D ∧
    (update_frame (initialState Nat) "camera" 5).recording = (initialState Nat).recording) :=
  ⟨by decide, update_frame_frame_condition Nat (initialState Nat) "camera" 5 "lidar" (by decide)⟩

end BehaviorStudio
